import Mathlib

/-!
Shallow embedding of the discord-webhook-helper library (src/src/index.ts).

The data model mirrors the TypeScript interfaces: optional fields become
`Option`, JavaScript arrays become `List`, and JS truthiness on strings and
numbers is modelled explicitly.  Effectful dispatch is modelled by returning
the list of payloads handed to the dispatch routine together with the
`Except`-style outcome; the HTTP transport itself is a parameter
(`FetchOutcome`).
-/

namespace DiscordWebhookHelper

/-- One embed field, mirroring the interface DiscordEmbedField. -/
structure DiscordEmbedField where
  name : String
  value : String
  inline : Option Bool := none
  deriving DecidableEq, Repr

/-- Footer object of an embed. -/
structure DiscordEmbedFooter where
  text : String
  icon_url : Option String := none
  deriving DecidableEq, Repr

/-- A media reference carrying a url, used for image and thumbnail. -/
structure DiscordEmbedImage where
  url : String
  deriving DecidableEq, Repr

/-- One embed, mirroring the interface DiscordEmbed; every field optional. -/
structure DiscordEmbed where
  title : Option String := none
  description : Option String := none
  url : Option String := none
  timestamp : Option String := none
  color : Option Nat := none
  footer : Option DiscordEmbedFooter := none
  image : Option DiscordEmbedImage := none
  thumbnail : Option DiscordEmbedImage := none
  fields : Option (List DiscordEmbedField) := none
  deriving DecidableEq, Repr

/-- The wire-level payload envelope (DiscordWebhookPayload). -/
structure DiscordWebhookPayload where
  content : Option String := none
  username : Option String := none
  avatar_url : Option String := none
  embeds : Option (List DiscordEmbed) := none
  deriving DecidableEq, Repr

/-- The closed status enumeration DiscordStatusColor. -/
inductive DiscordStatusColor where
  | success
  | warning
  | error
  | info
  deriving DecidableEq, Repr

/-- Options record accepted by the DiscordWebhook constructor. -/
structure DiscordWebhookOptions where
  webhookUrl : String
  username : Option String := none
  avatarUrl : Option String := none
  timeout : Option Nat := none
  deriving DecidableEq, Repr

/-- The configured client state held by a constructed DiscordWebhook. -/
structure DiscordWebhook where
  webhookUrl : String
  username : Option String := none
  avatarUrl : Option String := none
  timeout : Nat := 10000
  deriving DecidableEq, Repr

/-- The required endpoint start enforced by the constructor. -/
def expectedWebhookUrlStart : String := "https://discord.com/api/webhooks/"

/-- JS truthiness of a string: truthy iff non-empty. -/
def strTruthy (s : String) : Bool := !(s == "")

/-- JS truthiness of an optional string argument. -/
def optStrTruthy : Option String → Bool
  | none => false
  | some s => strTruthy s

/-- JS `x || d` on an optional number: falsy (absent or zero) yields `d`. -/
def optNatOrDefault : Option Nat → Nat → Nat
  | none, d => d
  | some 0, d => d
  | some n, _ => n

/-- The static STATUS_COLORS table of DiscordWebhook. -/
def DiscordWebhook.STATUS_COLORS : DiscordStatusColor → Nat
  | DiscordStatusColor.success => 0x57F287
  | DiscordStatusColor.warning => 0xFEE75C
  | DiscordStatusColor.error => 0xED4245
  | DiscordStatusColor.info => 0x5865F2

/-- The DiscordWebhook constructor: throws on a falsy url or one that does
not start with the webhook url start, otherwise stores the options with the
timeout defaulted to 10000. -/
def DiscordWebhook.create (options : DiscordWebhookOptions) :
    Except String DiscordWebhook :=
  if !(strTruthy options.webhookUrl) ||
      !(options.webhookUrl.startsWith expectedWebhookUrlStart) then
    Except.error "Invalid webhook URL. Must be a Discord webhook URL."
  else
    Except.ok
      { webhookUrl := options.webhookUrl
        username := options.username
        avatarUrl := options.avatarUrl
        timeout := optNatOrDefault options.timeout 10000 }

/-- A JavaScript Error value: a name and a message. -/
structure JSError where
  name : String
  message : String
  deriving DecidableEq, Repr

/-- Outcome of the fetch call inside one dispatch: an HTTP response, an
abort fired by the timeout timer, or another transport failure. -/
inductive FetchOutcome where
  | response (status : Nat) (statusText : String) (body : String)
  | abortError
  | failure (e : JSError)
  deriving DecidableEq, Repr

/-- node-fetch response.ok: status in the 200..299 range. -/
def responseOk (status : Nat) : Bool :=
  decide (200 ≤ status) && decide (status < 300)

/-- The internal dispatch routine. The try-block either returns or throws a
JS Error; the catch-block rewraps it, mapping an AbortError to the timeout
message and anything else to a prefixed copy of its message. -/
def DiscordWebhook.execute (w : DiscordWebhook) (_payload : DiscordWebhookPayload)
    (outcome : FetchOutcome) : Except String Unit :=
  let tried : Except JSError Unit :=
    match outcome with
    | FetchOutcome.response status statusText body =>
      if responseOk status then Except.ok ()
      else
        Except.error
          { name := "Error"
            message := "Discord API error: " ++ toString status ++ " " ++
              statusText ++ " - " ++ body }
    | FetchOutcome.abortError =>
      Except.error { name := "AbortError", message := "The operation was aborted" }
    | FetchOutcome.failure e => Except.error e
  match tried with
  | Except.ok () => Except.ok ()
  | Except.error e =>
    if e.name == "AbortError" then
      Except.error
        ("Failed to send webhook: Request timeout after " ++
          toString w.timeout ++ "ms")
    else
      Except.error ("Failed to send webhook: " ++ e.message)

/-- send(content, embeds?): one dispatch of the assembled payload. The first
component lists the payloads handed to the dispatch routine. -/
def DiscordWebhook.send (w : DiscordWebhook) (content : String)
    (embeds : Option (List DiscordEmbed)) (outcome : FetchOutcome) :
    List DiscordWebhookPayload × Except String Unit :=
  let payload : DiscordWebhookPayload :=
    { content := some content
      username := w.username
      avatar_url := w.avatarUrl
      embeds := embeds }
  ([payload], w.execute payload outcome)

/-- The single embed constructed by sendStatus; `now` stands for the current
instant as an ISO-8601 string. -/
def mkStatusEmbed (status : DiscordStatusColor) (title : String)
    (description : Option String) (fields : Option (List DiscordEmbedField))
    (imageUrl : Option String) (now : String) : DiscordEmbed :=
  let e0 : DiscordEmbed :=
    { title := some title
      color := some (DiscordWebhook.STATUS_COLORS status)
      timestamp := some now }
  let e1 :=
    if optStrTruthy description then { e0 with description := description }
    else e0
  let e2 :=
    match fields with
    | some fs => if 0 < fs.length then { e1 with fields := some fs } else e1
    | none => e1
  let e3 :=
    match imageUrl with
    | some u => if strTruthy u then { e2 with image := some { url := u } } else e2
    | none => e2
  e3

/-- sendStatus: builds the single status embed and dispatches it as the sole
embed of a payload carrying no content text. -/
def DiscordWebhook.sendStatus (w : DiscordWebhook) (status : DiscordStatusColor)
    (title : String) (description : Option String)
    (fields : Option (List DiscordEmbedField)) (imageUrl : Option String)
    (now : String) (outcome : FetchOutcome) :
    List DiscordWebhookPayload × Except String Unit :=
  let embed := mkStatusEmbed status title description fields imageUrl now
  let payload : DiscordWebhookPayload :=
    { username := w.username
      avatar_url := w.avatarUrl
      embeds := some [embed] }
  ([payload], w.execute payload outcome)

/-- sendEmbeds: validates the length bounds locally, then dispatches once. -/
def DiscordWebhook.sendEmbeds (w : DiscordWebhook) (embeds : List DiscordEmbed)
    (outcome : FetchOutcome) :
    List DiscordWebhookPayload × Except String Unit :=
  if embeds.length = 0 then
    ([], Except.error "At least one embed is required")
  else if 10 < embeds.length then
    ([], Except.error "Maximum 10 embeds allowed per message")
  else
    let payload : DiscordWebhookPayload :=
      { username := w.username
        avatar_url := w.avatarUrl
        embeds := some embeds }
    ([payload], w.execute payload outcome)

/-- The mutable builder state: one accumulated embed. -/
structure EmbedBuilder where
  embed : DiscordEmbed := {}
  deriving DecidableEq, Repr

/-- A fresh builder, as returned by createEmbed(). -/
def EmbedBuilder.new : EmbedBuilder := {}

def EmbedBuilder.setTitle (b : EmbedBuilder) (title : String) : EmbedBuilder :=
  { b with embed := { b.embed with title := some title } }

def EmbedBuilder.setDescription (b : EmbedBuilder) (description : String) :
    EmbedBuilder :=
  { b with embed := { b.embed with description := some description } }

def EmbedBuilder.setColor (b : EmbedBuilder) (color : Nat) : EmbedBuilder :=
  { b with embed := { b.embed with color := some color } }

def EmbedBuilder.setStatusColor (b : EmbedBuilder) (status : DiscordStatusColor) :
    EmbedBuilder :=
  { b with embed :=
      { b.embed with color := some (DiscordWebhook.STATUS_COLORS status) } }

def EmbedBuilder.setUrl (b : EmbedBuilder) (url : String) : EmbedBuilder :=
  { b with embed := { b.embed with url := some url } }

def EmbedBuilder.setTimestamp (b : EmbedBuilder) (now : String) : EmbedBuilder :=
  { b with embed := { b.embed with timestamp := some now } }

def EmbedBuilder.setFooter (b : EmbedBuilder) (text : String)
    (iconUrl : Option String) : EmbedBuilder :=
  { b with embed := { b.embed with footer := some { text := text, icon_url := iconUrl } } }

def EmbedBuilder.setImage (b : EmbedBuilder) (url : String) : EmbedBuilder :=
  { b with embed := { b.embed with image := some { url := url } } }

def EmbedBuilder.setThumbnail (b : EmbedBuilder) (url : String) : EmbedBuilder :=
  { b with embed := { b.embed with thumbnail := some { url := url } } }

/-- addField(name, value, inline): initializes the field list on first use
and appends one field with an explicit inline flag. -/
def EmbedBuilder.addField (b : EmbedBuilder) (name value : String)
    (inline : Bool) : EmbedBuilder :=
  let cur := b.embed.fields.getD []
  { b with embed :=
      { b.embed with
        fields := some (cur ++ [{ name := name, value := value, inline := some inline }]) } }

/-- addField called with the inline argument omitted: the default is false. -/
def EmbedBuilder.addFieldD (b : EmbedBuilder) (name value : String) :
    EmbedBuilder :=
  b.addField name value false

/-- addFields(fields): initializes the field list on first use and appends
the given fields unchanged. -/
def EmbedBuilder.addFields (b : EmbedBuilder) (fields : List DiscordEmbedField) :
    EmbedBuilder :=
  let cur := b.embed.fields.getD []
  { b with embed := { b.embed with fields := some (cur ++ fields) } }

def EmbedBuilder.build (b : EmbedBuilder) : DiscordEmbed := b.embed

/-- Modelled from the spec words of claim C9: calling addField once per
element of the sequence, in order; an element whose inline flag is absent
reaches addField as an omitted argument, so the default false applies. -/
def addFieldsViaAddField (b : EmbedBuilder) (fields : List DiscordEmbedField) :
    EmbedBuilder :=
  fields.foldl (fun acc f => acc.addField f.name f.value (f.inline.getD false)) b

/-- String containment as an explicit decomposition. -/
def strContains (s sub : String) : Prop := ∃ pre post, s = pre ++ (sub ++ post)

/-- A concrete validly-configured client used by witnesses. -/
def w0 : DiscordWebhook := { webhookUrl := "https://discord.com/api/webhooks/123/abc" }

set_option maxRecDepth 4096 in
/-- The empty string does not start with the webhook url start. -/
theorem empty_not_startsWith :
    (("" : String).startsWith expectedWebhookUrlStart) = false := by decide

/-- The constructor guard is true exactly on an empty or non-matching url. -/
theorem create_guard_iff (u : String) :
    (!(strTruthy u) || !(u.startsWith expectedWebhookUrlStart)) = true ↔
      (u = "" ∨ u.startsWith expectedWebhookUrlStart = false) := by
  simp [strTruthy, Bool.or_eq_true, Bool.not_eq_true']

/-- C1: DiscordWebhook construction fails with the ConfigurationError
message if and only if the endpoint string is empty or does not begin with
"https://discord.com/api/webhooks/"; construction succeeds exactly when the
endpoint begins with that prefix, and then no error is raised. -/
theorem construction_prefix_check (options : DiscordWebhookOptions) :
    ((∃ w, DiscordWebhook.create options = Except.ok w) ↔
      options.webhookUrl.startsWith expectedWebhookUrlStart = true) ∧
    (DiscordWebhook.create options =
        Except.error "Invalid webhook URL. Must be a Discord webhook URL." ↔
      (options.webhookUrl = "" ∨
        options.webhookUrl.startsWith expectedWebhookUrlStart = false)) := by
  cases hs : options.webhookUrl.startsWith expectedWebhookUrlStart with
  | false =>
    have hguard :
        (!(strTruthy options.webhookUrl) ||
          !(options.webhookUrl.startsWith expectedWebhookUrlStart)) = true :=
      (create_guard_iff options.webhookUrl).mpr (Or.inr hs)
    constructor
    · simp [DiscordWebhook.create, hguard]
    · simp [DiscordWebhook.create, hguard, hs]
  | true =>
    have hne : options.webhookUrl ≠ "" := by
      intro he
      rw [he] at hs
      rw [empty_not_startsWith] at hs
      exact Bool.false_ne_true hs
    have hguard :
        (!(strTruthy options.webhookUrl) ||
          !(options.webhookUrl.startsWith expectedWebhookUrlStart)) = false := by
      simp [strTruthy, hne, hs]
    constructor
    · simp [DiscordWebhook.create, hguard]
    · simp [DiscordWebhook.create, hguard, hne]

/-- C5: setStatusColor then build yields exactly the fixed color constant
for each of the four status values. -/
theorem setStatusColor_build_color (b : EmbedBuilder) (status : DiscordStatusColor) :
    ((b.setStatusColor status).build).color =
      some (match status with
        | DiscordStatusColor.success => 0x57F287
        | DiscordStatusColor.warning => 0xFEE75C
        | DiscordStatusColor.error => 0xED4245
        | DiscordStatusColor.info => 0x5865F2) := by
  cases status <;> rfl

/-- C8: addField appends one field to the end of the ordered field list,
initializing the list on first use, with inline false when omitted; in
particular two addField calls with omitted inline on a fresh builder yield
exactly the two fields in insertion order, and duplicate names are
permitted (the general clause places no constraint on names). -/
theorem addField_appends :
    (∀ (b : EmbedBuilder) (name value : String) (inl : Bool),
      ((b.addField name value inl).build).fields =
        some (((b.build).fields).getD [] ++
          [{ name := name, value := value, inline := some inl }])) ∧
    (((EmbedBuilder.new.addFieldD "a" "1").addFieldD "b" "2").build).fields =
      some [{ name := "a", value := "1", inline := some false },
            { name := "b", value := "2", inline := some false }] ∧
    (∀ (b : EmbedBuilder) (name value₁ value₂ : String),
      (((b.addFieldD name value₁).addFieldD name value₂).build).fields =
        some (((b.build).fields).getD [] ++
          [{ name := name, value := value₁, inline := some false },
           { name := name, value := value₂, inline := some false }])) := by
  refine ⟨fun b name value inl => rfl, rfl, fun b name value₁ value₂ => ?_⟩
  simp [EmbedBuilder.addFieldD, EmbedBuilder.addField, EmbedBuilder.build]

/-- C2: for an embeds sequence of length 0 or of length 11 or more,
sendEmbeds fails with the corresponding ValidationError message and hands
zero payloads to the dispatch routine, whatever the transport would do. -/
theorem sendEmbeds_bounds_rejected (w : DiscordWebhook)
    (embeds : List DiscordEmbed) (outcome : FetchOutcome)
    (h : embeds.length = 0 ∨ 11 ≤ embeds.length) :
    (w.sendEmbeds embeds outcome).1 = [] ∧
    ((w.sendEmbeds embeds outcome).2 =
        Except.error "At least one embed is required" ∨
      (w.sendEmbeds embeds outcome).2 =
        Except.error "Maximum 10 embeds allowed per message") := by
  rcases h with h | h
  · simp [DiscordWebhook.sendEmbeds, h]
  · have h0 : ¬ embeds.length = 0 := by omega
    have h10 : 10 < embeds.length := by omega
    simp [DiscordWebhook.sendEmbeds, h0, h10]

/-- Witness for C2 at the empty sequence. -/
theorem sendEmbeds_bounds_rejected_witness :
    (([] : List DiscordEmbed).length = 0 ∨ 11 ≤ ([] : List DiscordEmbed).length) ∧
    ((w0.sendEmbeds [] FetchOutcome.abortError).1 = [] ∧
      ((w0.sendEmbeds [] FetchOutcome.abortError).2 =
          Except.error "At least one embed is required" ∨
        (w0.sendEmbeds [] FetchOutcome.abortError).2 =
          Except.error "Maximum 10 embeds allowed per message")) :=
  ⟨Or.inl rfl, sendEmbeds_bounds_rejected w0 [] FetchOutcome.abortError (Or.inl rfl)⟩

/-- C3: for a sequence of 1 to 10 embeds, sendEmbeds hands exactly one
payload to the dispatch routine, and that payload's embeds field is exactly
the given sequence in the same order. -/
theorem sendEmbeds_single_dispatch (w : DiscordWebhook)
    (embeds : List DiscordEmbed) (outcome : FetchOutcome)
    (h1 : 1 ≤ embeds.length) (h2 : embeds.length ≤ 10) :
    (w.sendEmbeds embeds outcome).1 =
      [{ content := none
         username := w.username
         avatar_url := w.avatarUrl
         embeds := some embeds }] := by
  have h0 : ¬ embeds.length = 0 := by omega
  have h10 : ¬ 10 < embeds.length := by omega
  simp [DiscordWebhook.sendEmbeds, h0, h10]

/-- Witness for C3 at a one-element sequence. -/
theorem sendEmbeds_single_dispatch_witness :
    (1 ≤ [({} : DiscordEmbed)].length ∧ [({} : DiscordEmbed)].length ≤ 10) ∧
    (w0.sendEmbeds [{}] FetchOutcome.abortError).1 =
      [{ content := none
         username := w0.username
         avatar_url := w0.avatarUrl
         embeds := some [{}] }] :=
  ⟨⟨by decide, by decide⟩,
    sendEmbeds_single_dispatch w0 [{}] FetchOutcome.abortError (by decide) (by decide)⟩

/-- C6: a dispatch whose response status lies outside 200..299 fails with an
error message that contains the numeric status code, the status text, and
the response body text. -/
theorem nonSuccess_response_error (w : DiscordWebhook)
    (payload : DiscordWebhookPayload) (status : Nat) (statusText body : String)
    (h : ¬ (200 ≤ status ∧ status ≤ 299)) :
    ∃ msg,
      w.execute payload (FetchOutcome.response status statusText body) =
        Except.error msg ∧
      strContains msg (toString status) ∧
      strContains msg statusText ∧
      strContains msg body := by
  have hok : responseOk status = false := by
    simp only [responseOk, Bool.and_eq_false_iff, decide_eq_false_iff_not]
    omega
  refine ⟨"Failed to send webhook: " ++
      ("Discord API error: " ++ toString status ++ " " ++ statusText ++
        " - " ++ body), ?_, ?_, ?_, ?_⟩
  · simp [DiscordWebhook.execute, hok]
  · exact ⟨"Failed to send webhook: " ++ "Discord API error: ",
      " " ++ statusText ++ " - " ++ body, by simp [← String.append_assoc]⟩
  · exact ⟨"Failed to send webhook: " ++ "Discord API error: " ++
      toString status ++ " ", " - " ++ body, by simp [← String.append_assoc]⟩
  · exact ⟨"Failed to send webhook: " ++ "Discord API error: " ++
      toString status ++ " " ++ statusText ++ " - ", "", by
        simp [← String.append_assoc]⟩

/-- Witness for C6 at a 404 Not Found response with body Unknown Webhook. -/
theorem nonSuccess_response_error_witness :
    (¬ (200 ≤ 404 ∧ 404 ≤ 299)) ∧
    (∃ msg,
      w0.execute {} (FetchOutcome.response 404 "Not Found" "Unknown Webhook") =
        Except.error msg ∧
      strContains msg (toString 404) ∧
      strContains msg "Not Found" ∧
      strContains msg "Unknown Webhook") :=
  ⟨by omega,
    nonSuccess_response_error w0 {} 404 "Not Found" "Unknown Webhook" (by omega)⟩

/-- C7: a dispatch aborted by the configured deadline fails with the timeout
message, which contains the configured timeout value; in particular a client
configured with timeout 50 yields a message containing "50". -/
theorem timeout_error_carries_timeout (w : DiscordWebhook)
    (payload : DiscordWebhookPayload) :
    (∃ msg,
      w.execute payload FetchOutcome.abortError = Except.error msg ∧
      strContains msg (toString w.timeout)) ∧
    strContains
      ("Failed to send webhook: Request timeout after " ++ toString (50 : Nat) ++ "ms")
      "50" := by
  constructor
  · refine ⟨"Failed to send webhook: Request timeout after " ++
      toString w.timeout ++ "ms", ?_, ?_⟩
    · simp [DiscordWebhook.execute]
    · exact ⟨"Failed to send webhook: Request timeout after ", "ms", by
        simp [← String.append_assoc]⟩
  · exact ⟨"Failed to send webhook: Request timeout after ", "ms", by
      decide⟩

/-- Closed form of the embed constructed by sendStatus: title, color and
timestamp always present; description, fields and image present exactly when
the argument was supplied and non-empty. -/
theorem mkStatusEmbed_spec (status : DiscordStatusColor) (title : String)
    (description : Option String) (fields : Option (List DiscordEmbedField))
    (imageUrl : Option String) (now : String) :
    mkStatusEmbed status title description fields imageUrl now =
      { title := some title
        color := some (DiscordWebhook.STATUS_COLORS status)
        timestamp := some now
        description := match description with
          | some d => if d = "" then none else some d
          | none => none
        fields := match fields with
          | some fs => if fs = [] then none else some fs
          | none => none
        image := match imageUrl with
          | some u => if u = "" then none else some { url := u }
          | none => none } := by
  cases description <;> cases fields <;> cases imageUrl <;>
    simp [mkStatusEmbed, optStrTruthy, strTruthy, List.length_pos] <;>
    split_ifs <;> simp_all

/-- C4: sendStatus dispatches exactly one payload, with no content text and
a single embed; the embed always carries the title, the color from
STATUS_COLORS and the timestamp, while description, fields and image appear
exactly when the corresponding argument was supplied and non-empty (an
omitted or empty fields argument leaves the embed without a fields entry,
not with an empty list). -/
theorem sendStatus_embed_shape (w : DiscordWebhook) (status : DiscordStatusColor)
    (title : String) (description : Option String)
    (fields : Option (List DiscordEmbedField)) (imageUrl : Option String)
    (now : String) (outcome : FetchOutcome) :
    ∃ e,
      (w.sendStatus status title description fields imageUrl now outcome).1 =
        [{ content := none
           username := w.username
           avatar_url := w.avatarUrl
           embeds := some [e] }] ∧
      e.title = some title ∧
      e.color = some (DiscordWebhook.STATUS_COLORS status) ∧
      e.timestamp = some now ∧
      e.description = (match description with
        | some d => if d = "" then none else some d
        | none => none) ∧
      e.fields = (match fields with
        | some fs => if fs = [] then none else some fs
        | none => none) ∧
      e.image = (match imageUrl with
        | some u => if u = "" then none else some { url := u }
        | none => none) := by
  refine ⟨mkStatusEmbed status title description fields imageUrl now,
    rfl, ?_, ?_, ?_, ?_, ?_, ?_⟩ <;> rw [mkStatusEmbed_spec]

/-- C10: the title argument is placed in the single dispatched embed
unconditionally, for every title string including the empty string: the
embed's title is the given string, never absent. -/
theorem sendStatus_title_unconditional (w : DiscordWebhook)
    (status : DiscordStatusColor) (title : String) (description : Option String)
    (fields : Option (List DiscordEmbedField)) (imageUrl : Option String)
    (now : String) (outcome : FetchOutcome) :
    (∃ e,
      (w.sendStatus status title description fields imageUrl now outcome).1 =
        [{ content := none
           username := w.username
           avatar_url := w.avatarUrl
           embeds := some [e] }] ∧
      e.title = some title) ∧
    (∃ e,
      (w.sendStatus status "" description fields imageUrl now outcome).1 =
        [{ content := none
           username := w.username
           avatar_url := w.avatarUrl
           embeds := some [e] }] ∧
      e.title = some "") := by
  constructor
  · exact ⟨mkStatusEmbed status title description fields imageUrl now,
      rfl, by rw [mkStatusEmbed_spec]⟩
  · exact ⟨mkStatusEmbed status "" description fields imageUrl now,
      rfl, by rw [mkStatusEmbed_spec]⟩

/-- C9 counterexample: a field whose inline flag is absent is appended
unchanged by addFields, while any addField call records an explicit inline
boolean; and addFields with the empty sequence initializes the field list
where zero addField calls leave it absent. -/
theorem addFields_not_repeated_addField :
    EmbedBuilder.new.addFields [{ name := "a", value := "1", inline := none }] ≠
      addFieldsViaAddField EmbedBuilder.new
        [{ name := "a", value := "1", inline := none }] ∧
    EmbedBuilder.new.addFields ([] : List DiscordEmbedField) ≠
      addFieldsViaAddField EmbedBuilder.new ([] : List DiscordEmbedField) := by
  decide

/-- addFields with the empty sequence is the identity on a builder whose
field list is already initialized. -/
theorem addFields_nil_of_initialized (b : EmbedBuilder)
    (h : b.embed.fields ≠ none) : b.addFields [] = b := by
  obtain ⟨⟨t, d, u, ts, c, ft, im, th, fl⟩⟩ := b
  cases fl with
  | none => exact absurd rfl h
  | some l => simp [EmbedBuilder.addFields]

/-- Appending a field that carries an explicit inline flag via addFields is
one addField step. -/
theorem addFields_cons_of_inline (b : EmbedBuilder) (f : DiscordEmbedField)
    (fs : List DiscordEmbedField) (hf : f.inline ≠ none) :
    b.addFields (f :: fs) =
      (b.addField f.name f.value (f.inline.getD false)).addFields fs := by
  obtain ⟨n, v, i⟩ := f
  cases i with
  | none => exact absurd rfl hf
  | some i => simp [EmbedBuilder.addFields, EmbedBuilder.addField, List.append_assoc]

/-- C9 amended: addFields is equivalent to calling addField once per
element, in order, provided every element carries an explicit inline flag
and the call is not an empty-sequence call on a builder whose field list is
still uninitialized (addFields appends elements unchanged and initializes
the list even when given no elements, while addField always records an
explicit inline boolean). -/
theorem addFields_eq_repeated_addField (b : EmbedBuilder)
    (fs : List DiscordEmbedField)
    (h1 : ∀ f ∈ fs, f.inline ≠ none)
    (h2 : fs ≠ [] ∨ b.embed.fields ≠ none) :
    b.addFields fs = addFieldsViaAddField b fs := by
  induction fs generalizing b with
  | nil =>
    rcases h2 with h2 | h2
    · exact absurd rfl h2
    · simpa [addFieldsViaAddField] using addFields_nil_of_initialized b h2
  | cons f fs ih =>
    have hf : f.inline ≠ none := h1 f (List.mem_cons_self f fs)
    rw [addFields_cons_of_inline b f fs hf]
    have hstep : addFieldsViaAddField b (f :: fs) =
        addFieldsViaAddField (b.addField f.name f.value (f.inline.getD false)) fs := rfl
    rw [hstep]
    exact ih _ (fun g hg => h1 g (List.mem_cons_of_mem f hg))
      (Or.inr (by simp [EmbedBuilder.addField]))

/-- Witness for the amended C9 at a one-element sequence with an explicit
inline flag. -/
theorem addFields_eq_repeated_addField_witness :
    ((∀ f ∈ [({ name := "a", value := "1", inline := some true } :
        DiscordEmbedField)], f.inline ≠ none) ∧
      (([({ name := "a", value := "1", inline := some true } :
          DiscordEmbedField)] : List DiscordEmbedField) ≠ [] ∨
        EmbedBuilder.new.embed.fields ≠ none)) ∧
    EmbedBuilder.new.addFields
        [{ name := "a", value := "1", inline := some true }] =
      addFieldsViaAddField EmbedBuilder.new
        [{ name := "a", value := "1", inline := some true }] :=
  ⟨⟨by decide, Or.inl (by decide)⟩,
    addFields_eq_repeated_addField EmbedBuilder.new
      [{ name := "a", value := "1", inline := some true }]
      (by decide) (Or.inl (by decide))⟩

end DiscordWebhookHelper
